import Mathlib

/-!
Shallow embedding of `src/index.js` of ServeForPakbh: an Express backend that
creates Stripe payment intents, records client-asserted PayPal payments,
verifies Stripe webhooks and sends order-confirmation emails.

JS numbers are modelled as rationals (`ℚ`); request fields that may be absent
are `Option`s; the external Stripe SDK calls (`paymentIntents.create`,
`paymentIntents.retrieve`, `webhooks.constructEvent`) are oracles passed to the
handlers as explicit arguments; `sendMail` attempts are collected into a list.
-/

namespace Pakbh

/-- A JS value as it appears in the request bodies the claims exercise:
either a number (modelled as `ℚ`) or a string. -/
inductive JSVal where
  | num (q : ℚ)
  | str (s : String)
deriving DecidableEq

/-- JS truthiness for `JSVal`: `0` and `""` are falsy, everything else truthy. -/
def JSVal.truthy : JSVal → Bool
  | .num q => q != 0
  | .str s => s != ""

/-- JS truthiness of a possibly absent value (`undefined` is falsy). -/
def truthyOpt : Option JSVal → Bool
  | none => false
  | some v => v.truthy

/-- JS truthiness of a possibly absent string (environment variables,
header values): absent and `""` are falsy. -/
def strTruthy : Option String → Bool
  | none => false
  | some s => s != ""

/-- JS `a || b` where `a` is a possibly absent string and `b` a string
(falls through on `undefined` and on the falsy `""`). -/
def jsOr : Option String → String → String
  | none, b => b
  | some s, b => if s = "" then b else s

/-- JS `a || b` where both operands are possibly absent strings. -/
def jsOrS : Option String → Option String → Option String
  | none, b => b
  | some s, b => if s = "" then b else some s

/-- JS `Math.round`: nearest integer, ties toward positive infinity, i.e. the
floor of `q + 1/2`, written on the numerator/denominator so that it evaluates
in the kernel; `jsRound_eq_floor` below proves it is that floor. -/
def jsRound (q : ℚ) : ℤ := (2 * q.num + (q.den : ℤ)) / (2 * (q.den : ℤ))

/-- Left-pad a two-digit fraction (`9 ↦ "09"`). -/
def pad2 (n : ℕ) : String :=
  if n < 10 then "0" ++ toString n else toString n

/-- The number of cents `toFixed(2)` prints for `q`: `|q| * 100` rounded
half-up, i.e. the floor of `|q| * 100 + 1/2`, written on the
numerator/denominator so that it evaluates in the kernel;
`toFixed2Cents_eq_floor` below proves it is that floor. -/
def toFixed2Cents (q : ℚ) : ℕ :=
  (200 * q.num.natAbs + q.den) / (2 * q.den)

/-- JS `Number.prototype.toFixed(2)` on the rational idealization of a JS
number: round `|q| * 100` half-up to an integer and print it with the last
two digits after a decimal point, with a leading sign for negative `q`. -/
def toFixed2 (q : ℚ) : String :=
  let sign := if q < 0 then "-" else ""
  let n : ℕ := toFixed2Cents q
  sign ++ toString (n / 100) ++ "." ++ pad2 (n % 100)

/-- JS `v.toFixed(2)`: succeeds on numbers, throws a `TypeError` on strings
(the thrown message models the V8 message text). -/
def JSVal.toFixed : JSVal → Except String String
  | .num q => .ok (toFixed2 q)
  | .str _ => .error "amount.toFixed is not a function"

/-- A JSON document, as produced by the `res.json` calls of the handlers.
Object fields are an association list in source order. -/
inductive Json where
  | str (s : String)
  | num (q : ℚ)
  | bool (b : Bool)
  | null
  | arr (xs : List Json)
  | obj (fields : List (String × Json))

/-- Look up a field of a JSON object (`none` on non-objects/absent keys). -/
def Json.look : Json → String → Option Json
  | .obj fields, k => fields.lookup k
  | _, _ => none

/-- Render a `JSVal` into JSON (request values echoed back in responses). -/
def JSVal.toJson : JSVal → Json
  | .num q => .num q
  | .str s => .str s

/-- An HTTP response: status code plus JSON (or, for `res.send`, string) body. -/
structure HttpResponse where
  status : ℕ
  body : Json

/-- The environment variables the server reads (absent = unset). -/
structure Env where
  STRIPE_SECRET_KEY : Option String
  STRIPE_WEBHOOK_SECRET : Option String
  EMAIL_USER : Option String
  EMAIL_PASS : Option String
  BUSINESS_EMAIL : Option String
  NODE_ENV : Option String

/-- `emailTransporter` is initialized iff `EMAIL_USER && EMAIL_PASS` is truthy. -/
def emailConfigured (env : Env) : Bool :=
  strTruthy env.EMAIL_USER && strTruthy env.EMAIL_PASS

/-- The static CORS allow-list of `src/index.js` (a `const`, never mutated). -/
def allowedOrigins : List String :=
  [ "http://localhost:5173",
    "http://localhost:3000",
    "https://pakbh.com",
    "https://www.pakbh.com",
    "https://delicate-banoffee-384c86.netlify.app",
    "https://blenhairs.netlify.app",
    "https://serveforpakbh.onrender.com" ]

/-- Outcome of the `cors` origin callback: `allow` models `callback(null, true)`,
`reject msg` models `callback(new Error(msg), false)` handed to the framework
error path. -/
inductive CorsDecision where
  | allow
  | reject (msg : String)
deriving DecidableEq

/-- The rejection message of the CORS origin callback. -/
def corsMsg : String :=
  "The CORS policy for this site does not allow access from the specified Origin."

/-- The `origin` callback of the `cors` middleware: `!origin` (absent or empty
header) is allowed; otherwise reject when `allowedOrigins.indexOf(origin) === -1`. -/
def corsOriginCheck : Option String → CorsDecision
  | none => .allow
  | some o =>
      if o = "" then .allow
      else if allowedOrigins.contains o = false then .reject corsMsg
      else .allow

/-- A customer object from a request body (`customer?.email`, `customer?.name`). -/
structure CustomerInfo where
  email : Option String
  name : Option String
deriving DecidableEq

/-- The fields of a `POST /api/create-payment-intent` body the handler reads.
`items` is used only through `items?.length`, so only the length is kept;
the caller `metadata` spread is not inspected by any claim and is elided. -/
structure CreateIntentReq where
  amount : Option ℚ
  currency : Option String
  customer : Option CustomerInfo
  itemsLength : Option ℕ

/-- The argument object this server passes to `stripe.paymentIntents.create`
(the constant `automatic_payment_methods: {enabled: true}` is elided). -/
structure StripeCreateParams where
  amount : ℤ
  currency : String
  metadata_customer_email : String
  metadata_customer_name : String
  metadata_items_count : String
  receipt_email : Option String
  description : String
deriving DecidableEq

/-- Oracle for the outcome of `stripe.paymentIntents.create`: the intent id and
client secret on success, or the thrown error object (`message`, `type`, both
possibly undefined) on failure. -/
inductive StripeCreateResult where
  | ok (id client_secret : String)
  | err (message errType : Option String)

/-- `POST /api/create-payment-intent` (src/index.js lines 79-124).
Returns the HTTP response together with the `paymentIntents.create` argument,
`none` when the provider is never called. -/
def createPaymentIntent (req : CreateIntentReq) (stripeResult : StripeCreateResult) :
    HttpResponse × Option StripeCreateParams :=
  -- if (!amount || amount < 50)
  if truthyOpt (req.amount.map .num) = false ∨ req.amount.getD 0 < 50 then
    ({ status := 400,
       body := .obj [("error", .str "Invalid amount"),
                     ("details", .str "Amount must be at least $0.50")] }, none)
  else
    let params : StripeCreateParams :=
      { amount := jsRound (req.amount.getD 0),
        currency := req.currency.getD "usd",
        metadata_customer_email := jsOr (req.customer.bind (·.email)) "",
        metadata_customer_name := jsOr (req.customer.bind (·.name)) "",
        metadata_items_count := jsOr (req.itemsLength.map toString) "0",
        receipt_email := req.customer.bind (·.email),
        description := "Premium Afro Kinky Bulk Hair - Blen Hairs USA" }
    match stripeResult with
    | .ok id secret =>
        ({ status := 200,
           body := .obj [("success", .bool true),
                         ("client_secret", .str secret),
                         ("payment_intent_id", .str id)] }, some params)
    | .err message errType =>
        ({ status := 500,
           body := .obj [("success", .bool false),
                         ("error", .str (jsOr message "Failed to create payment intent")),
                         ("code", .str (jsOr errType "unknown_error"))] }, some params)

/-- A Stripe payment-intent snapshot as this server reads it: the webhook and
confirm flows use `id`, `status`, `amount` (integer minor units),
`receipt_email` and the two metadata fields the notifier consults. -/
structure StripeIntent where
  id : String
  status : String
  amount : ℤ
  receipt_email : Option String
  metadata_customer_email : Option String
  metadata_customer_name : Option String
deriving DecidableEq

/-- The locally synthesized PayPal payment record (src/index.js lines 144-157);
`create_time` is the ISO timestamp taken at handling time. -/
structure PaypalPayment where
  id : JSVal
  status : String
  amount_currency_code : String
  amount_value : String
  payer_id : JSVal
  payer_email : Option String
  create_time : String
  payment_method : String
deriving DecidableEq

/-- First argument of `sendOrderEmails`: either a Stripe intent (which carries
`object === "payment_intent"`, selecting the Stripe branch) or the local PayPal
record (no `object` field, selecting the PayPal branch). -/
inductive PaymentData where
  | stripeIntent (pi : StripeIntent)
  | paypal (p : PaypalPayment)

/-- Which of the two `sendMail` calls a message is. -/
inductive EmailKind where
  | business
  | customer
deriving DecidableEq

/-- One attempted `emailTransporter.sendMail` call, identified by which of the
two fixed templates it renders and its `to` address (the HTML bodies and
subjects interpolate only fields already recorded here). -/
structure EmailMessage where
  kind : EmailKind
  toAddr : String
deriving DecidableEq

/-- `sendOrderEmails(paymentData, customer, items, totalAmount)`
(src/index.js lines 273-384), returning the list of attempted `sendMail`
calls. The whole body runs inside `try/catch`, so a thrown `toFixed` yields
`[]`; a missing customer email logs and returns `[]`; otherwise exactly the
business message and the customer message are attempted (send failures are
caught, so attempts are unconditional once reached). -/
def sendOrderEmails (env : Env) (paymentData : PaymentData)
    (customer : Option CustomerInfo) (totalAmount : Option JSVal) :
    List EmailMessage :=
  let norm : Except String (Option String × String × String) :=
    match paymentData with
    | .stripeIntent pi =>
        -- Stripe payment
        .ok (jsOrS pi.receipt_email pi.metadata_customer_email,
             jsOr pi.metadata_customer_name "Customer",
             toFixed2 ((pi.amount : ℚ) / 100))
    | .paypal p =>
        -- PayPal payment: totalAmount?.toFixed(2) || paymentData.amount?.value
        match totalAmount with
        | none =>
            .ok (jsOrS (customer.bind (·.email)) p.payer_email,
                 jsOr (customer.bind (·.name)) "Customer",
                 p.amount_value)
        | some v =>
            match v.toFixed with
            | .error e => .error e
            | .ok s =>
                .ok (jsOrS (customer.bind (·.email)) p.payer_email,
                     jsOr (customer.bind (·.name)) "Customer",
                     jsOr (some s) p.amount_value)
  match norm with
  | .error _ => []
  | .ok (customerEmail, _customerName, _amount) =>
      match customerEmail with
      | none => []
      | some em =>
          if em = "" then []
          else
            [ { kind := .business, toAddr := jsOr env.BUSINESS_EMAIL "anaroyes7@gmail.com" },
              { kind := .customer, toAddr := em } ]

/-- Result of one POST handler run: the HTTP response, the `sendMail` attempts
it caused, and whether `sendOrderEmails` was invoked at all. -/
structure HandlerResult where
  resp : HttpResponse
  emails : List EmailMessage
  notified : Bool

/-- The fields of a `POST /api/process-paypal-payment` body the handler reads
(`items` is forwarded to the notifier, which never inspects it; elided). -/
structure PaypalReq where
  orderID : Option JSVal
  payerID : Option JSVal
  amount : Option JSVal
  customer : Option CustomerInfo

/-- `POST /api/process-paypal-payment` (src/index.js lines 127-178). `ts` is
the ISO timestamp `new Date().toISOString()`. Validation is the truthiness
check `!orderID || !payerID || !amount`; `amount.toFixed(2)` throwing (a
non-number amount) lands in the `catch` branch, a 500. -/
def processPaypalPayment (env : Env) (ts : String) (req : PaypalReq) : HandlerResult :=
  if truthyOpt req.orderID = false ∨ truthyOpt req.payerID = false ∨
      truthyOpt req.amount = false then
    { resp := { status := 400,
                body := .obj [("success", .bool false),
                              ("error", .str "Missing required payment information")] },
      emails := [], notified := false }
  else
    match (req.amount.getD (.num 0)).toFixed with
    | .error e =>
        { resp := { status := 500,
                    body := .obj [("success", .bool false),
                                  ("error", .str (jsOr (some e) "Failed to process PayPal payment"))] },
          emails := [], notified := false }
    | .ok value =>
        let paypalPayment : PaypalPayment :=
          { id := req.orderID.getD (.num 0),
            status := "COMPLETED",
            amount_currency_code := "USD",
            amount_value := value,
            payer_id := req.payerID.getD (.num 0),
            payer_email := req.customer.bind (·.email),
            create_time := ts,
            payment_method := "PayPal" }
        let emails :=
          if emailConfigured env then
            sendOrderEmails env (.paypal paypalPayment) req.customer req.amount
          else []
        { resp := { status := 200,
                    body := .obj
                      [("success", .bool true),
                       ("payment", .obj
                         [("id", paypalPayment.id.toJson),
                          ("status", .str paypalPayment.status),
                          ("amount", .obj
                            [("currency_code", .str paypalPayment.amount_currency_code),
                             ("value", .str paypalPayment.amount_value)]),
                          ("payer", .obj
                            [("payer_id", paypalPayment.payer_id.toJson),
                             ("email_address",
                               match paypalPayment.payer_email with
                               | some e => .str e
                               | none => .null)]),
                          ("create_time", .str paypalPayment.create_time),
                          ("payment_method", .str paypalPayment.payment_method)])] },
          emails := emails, notified := emailConfigured env }

/-- Oracle for `stripe.paymentIntents.retrieve`: the intent on success, the
thrown error (with possibly absent `message`) on failure. -/
inductive RetrieveResult where
  | ok (pi : StripeIntent)
  | err (message : Option String)

/-- Serialization of a retrieved intent as `res.json` emits it inside
`{success:true, payment_intent: paymentIntent}`. -/
def StripeIntent.toJson (pi : StripeIntent) : Json :=
  .obj [("id", .str pi.id),
        ("status", .str pi.status),
        ("amount", .num (pi.amount : ℚ)),
        ("receipt_email",
          match pi.receipt_email with
          | some e => .str e
          | none => .null)]

/-- `POST /api/confirm-payment` (src/index.js lines 181-221). `retrieve` is the
outcome of `stripe.paymentIntents.retrieve(payment_intent_id)`; both response
branches after a successful retrieve go through `res.json`, i.e. status 200. -/
def confirmPayment (env : Env) (payment_intent_id : Option JSVal)
    (retrieve : RetrieveResult) : HandlerResult :=
  if truthyOpt payment_intent_id = false then
    { resp := { status := 400,
                body := .obj [("success", .bool false),
                              ("error", .str "Payment intent ID is required")] },
      emails := [], notified := false }
  else
    match retrieve with
    | .err message =>
        { resp := { status := 500,
                    body := .obj [("success", .bool false),
                                  ("error", .str (jsOr message "Failed to confirm payment"))] },
          emails := [], notified := false }
    | .ok paymentIntent =>
        if paymentIntent.status = "succeeded" then
          let emails :=
            if emailConfigured env then
              sendOrderEmails env (.stripeIntent paymentIntent) none none
            else []
          { resp := { status := 200,
                      body := .obj [("success", .bool true),
                                    ("payment_intent", paymentIntent.toJson)] },
            emails := emails, notified := emailConfigured env }
        else
          { resp := { status := 200,
                      body := .obj
                        [("success", .bool false),
                         ("status", .str paymentIntent.status),
                         ("message", .str ("Payment status is " ++ paymentIntent.status))] },
            emails := [], notified := false }

/-- A signed Stripe webhook event as `stripe.webhooks.constructEvent` returns
it: the `type` string and the intent carried in `data.object`. -/
structure WebhookEvent where
  type : String
  dataObject : StripeIntent

/-- Oracle for `stripe.webhooks.constructEvent(req.body, sig, webhookSecret)`:
the verified event, or the thrown signature-verification error message. -/
inductive ConstructEventResult where
  | ok (event : WebhookEvent)
  | err (message : String)

/-- `POST /api/webhook` (src/index.js lines 224-270). A missing webhook secret
is a 500 before verification; a verification failure is a 400 via
`res.send` with a string body; a verified event is dispatched on its type and
always acknowledged with `{received:true}` (`sendOrderEmails` catches its own
errors, so the dispatch `catch` branch is unreachable in this model). -/
def webhookHandler (env : Env) (constructEvent : ConstructEventResult) : HandlerResult :=
  if strTruthy env.STRIPE_WEBHOOK_SECRET = false then
    { resp := { status := 500,
                body := .obj [("error", .str "Webhook secret not configured")] },
      emails := [], notified := false }
  else
    match constructEvent with
    | .err message =>
        { resp := { status := 400, body := .str ("Webhook Error: " ++ message) },
          emails := [], notified := false }
    | .ok event =>
        if event.type = "payment_intent.succeeded" then
          let paymentIntent := event.dataObject
          let emails :=
            if emailConfigured env then
              sendOrderEmails env (.stripeIntent paymentIntent) none none
            else []
          { resp := { status := 200, body := .obj [("received", .bool true)] },
            emails := emails, notified := emailConfigured env }
        else if event.type = "payment_intent.payment_failed" then
          { resp := { status := 200, body := .obj [("received", .bool true)] },
            emails := [], notified := false }
        else
          { resp := { status := 200, body := .obj [("received", .bool true)] },
            emails := [], notified := false }

/-- `GET /api/health` (src/index.js lines 387-401). `ts` is
`new Date().toISOString()`. `stripe_connected` is `!!stripe`, and the `stripe`
SDK object exists whenever the process is serving (startup aborts without a
key only after constructing it), hence the literal `true`. -/
def healthBody (env : Env) (ts : String) : Json :=
  .obj [("status", .str "OK"),
        ("timestamp", .str ts),
        ("market", .str "United States"),
        ("location", .str "Miami, FL"),
        ("stripe_connected", .bool true),
        ("stripe_key_configured", .bool (strTruthy env.STRIPE_SECRET_KEY)),
        ("email_configured", .bool (strTruthy env.EMAIL_USER && strTruthy env.EMAIL_PASS)),
        ("environment", .str (jsOr env.NODE_ENV "development")),
        ("supported_payment_methods", .arr [.str "stripe", .str "paypal"]),
        ("shipping_zones",
          .arr [.str "US", .str "Canada", .str "Mexico", .str "Caribbean",
                .str "International"]),
        ("cors_allowed_origins", .arr (allowedOrigins.map .str))]

/-- Count the messages of one kind in a list of attempted sends. -/
def countKind (msgs : List EmailMessage) (k : EmailKind) : ℕ :=
  (msgs.filter (fun m => m.kind = k)).length

/-! Concrete fixtures used to evaluate the handlers at specific inputs. -/

/-- A fully configured environment. -/
def envT : Env :=
  { STRIPE_SECRET_KEY := some "sk_test_a", STRIPE_WEBHOOK_SECRET := some "whsec_a",
    EMAIL_USER := some "shop@example.com", EMAIL_PASS := some "pw_a",
    BUSINESS_EMAIL := none, NODE_ENV := none }

/-- The same configuration pattern as `envT` with every secret value replaced. -/
def envU : Env :=
  { STRIPE_SECRET_KEY := some "sk_test_b", STRIPE_WEBHOOK_SECRET := some "whsec_b",
    EMAIL_USER := some "orders@example.org", EMAIL_PASS := some "pw_b",
    BUSINESS_EMAIL := none, NODE_ENV := none }

/-- A create-payment-intent request with `amount: 25` (the spec example). -/
def req25 : CreateIntentReq :=
  { amount := some 25, currency := some "usd", customer := none, itemsLength := none }

/-- A create-payment-intent request with the non-integer amount `50.5`. -/
def reqHalf : CreateIntentReq :=
  { amount := some (mkRat 101 2), currency := none, customer := none, itemsLength := none }

/-- The PayPal request of the spec example: `orderID:"O1"`, `payerID:"P1"`,
`amount:19.99`, `customer.email:"a@b.com"`. -/
def reqPaypal : PaypalReq :=
  { orderID := some (.str "O1"), payerID := some (.str "P1"),
    amount := some (.num (mkRat 1999 100)),
    customer := some { email := some "a@b.com", name := none } }

/-- A PayPal request whose three required fields are all present but whose
amount is the number `0` (falsy). -/
def reqPaypalZero : PaypalReq :=
  { orderID := some (.str "O1"), payerID := some (.str "P1"),
    amount := some (.num 0), customer := none }

/-- A PayPal request whose amount is the truthy string `"19.99"`. -/
def reqPaypalStr : PaypalReq :=
  { orderID := some (.str "O1"), payerID := some (.str "P1"),
    amount := some (.str "19.99"), customer := none }

/-- A succeeded payment intent with a receipt email. -/
def piSucceeded : StripeIntent :=
  { id := "pi_9", status := "succeeded", amount := 2500,
    receipt_email := some "c@d.com",
    metadata_customer_email := none, metadata_customer_name := none }

/-- The same intent still awaiting a payment method. -/
def piRequires : StripeIntent :=
  { piSucceeded with status := "requires_payment_method" }

/-! Theorems. First two bridge lemmas showing that the numerator/denominator
renderings of the JS rounding primitives are the intended floors, then one
theorem per claim. -/

/-- `jsRound` is the floor of `q + 1/2`, i.e. JS `Math.round`. -/
theorem jsRound_eq_floor (q : ℚ) : jsRound q = ⌊q + 1/2⌋ := by
  have hden : (q.den : ℚ) ≠ 0 := Nat.cast_ne_zero.mpr q.den_nz
  have h1 : (q + 1/2 : ℚ) = ((2 * q.num + (q.den : ℤ) : ℤ) : ℚ) / ((2 * q.den : ℕ) : ℚ) := by
    conv_lhs => rw [← Rat.num_div_den q]
    push_cast
    field_simp
    ring
  rw [jsRound, h1, Rat.floor_intCast_div_natCast]
  push_cast
  ring_nf

/-- `toFixed2Cents` is `|q| * 100` rounded half-up, as `toFixed(2)` prescribes. -/
theorem toFixed2Cents_eq_floor (q : ℚ) :
    toFixed2Cents q = (⌊|q| * 100 + 1/2⌋).toNat := by
  have hden : (q.den : ℚ) ≠ 0 := Nat.cast_ne_zero.mpr q.den_nz
  have habs : |q| = ((q.num.natAbs : ℚ)) / ((q.den : ℚ)) := by
    conv_lhs => rw [← Rat.num_div_den q]
    rw [abs_div, Int.cast_natAbs, Int.cast_abs]
    congr 1
    rw [abs_of_nonneg (by positivity : (0:ℚ) ≤ (q.den : ℚ))]
  have h1 : (|q| * 100 + 1/2 : ℚ) =
      (((200 * q.num.natAbs + q.den : ℕ) : ℤ) : ℚ) / ((2 * q.den : ℕ) : ℚ) := by
    rw [habs]
    push_cast
    field_simp
    rw [Int.cast_natAbs, Int.cast_abs]
    ring
  rw [toFixed2Cents, h1, Rat.floor_intCast_div_natCast, ← Int.natCast_div]
  exact (Int.toNat_natCast _).symm

/-- A present numeric amount of at least 50 fails neither half of the
`!amount || amount < 50` guard of create-payment-intent. -/
theorem amount_cond_false {amt : Option ℚ} {q : ℚ} (hq : amt = some q) (h50 : 50 ≤ q) :
    ¬ (truthyOpt (amt.map JSVal.num) = false ∨ amt.getD 0 < 50) := by
  have hq0 : q ≠ 0 := ne_of_gt (lt_of_lt_of_le (by norm_num) h50)
  rintro (h0 | hlt)
  · rw [hq] at h0
    simp [truthyOpt, JSVal.truthy, bne_iff_ne, hq0] at h0
  · rw [hq] at hlt
    simp at hlt
    exact absurd h50 (not_le.mpr hlt)

/-- Claim C1, as amended: a process-paypal-payment request whose orderID,
payerID or amount is missing or falsy gets a 400 with error "Missing required
payment information"; a request whose three fields are truthy with a numeric
amount gets a 200 whose success flag is true and whose payment record carries
the caller-supplied orderID as id, the literal status "COMPLETED" and the
amount formatted to two decimals — with no server-side verification: the
outcome depends only on the request fields. The original claim spoke of the
fields merely being present; `claim_C1_cex` refutes that reading. -/
theorem claim_C1 (env : Env) (ts : String) (req : PaypalReq) :
    ((truthyOpt req.orderID = false ∨ truthyOpt req.payerID = false ∨
        truthyOpt req.amount = false) →
      (processPaypalPayment env ts req).resp =
        { status := 400,
          body := .obj [("success", .bool false),
                        ("error", .str "Missing required payment information")] }) ∧
    (∀ oid pid q, req.orderID = some oid → req.payerID = some pid →
      req.amount = some (.num q) →
      oid.truthy = true → pid.truthy = true → q ≠ 0 →
      (processPaypalPayment env ts req).resp.status = 200 ∧
      (processPaypalPayment env ts req).resp.body.look "success" = some (.bool true) ∧
      (∃ p, (processPaypalPayment env ts req).resp.body.look "payment" = some p ∧
        p.look "id" = some oid.toJson ∧
        p.look "status" = some (.str "COMPLETED") ∧
        (∃ a, p.look "amount" = some a ∧
          a.look "currency_code" = some (.str "USD") ∧
          a.look "value" = some (.str (toFixed2 q))))) := by
  constructor
  · intro h
    simp only [processPaypalPayment, if_pos h]
  · intro oid pid q hoid hpid haq htro htrp hq0
    have h3 : (JSVal.num q).truthy = true := by
      simp [JSVal.truthy, bne_iff_ne, hq0]
    have hcond : ¬ (truthyOpt req.orderID = false ∨ truthyOpt req.payerID = false ∨
        truthyOpt req.amount = false) := by
      rw [hoid, hpid, haq]
      simp [truthyOpt, htro, htrp, h3]
    simp only [processPaypalPayment, if_neg hcond]
    rw [haq, hoid, hpid]
    simp only [Option.getD_some, JSVal.toFixed]
    refine ⟨by trivial, by simp [Json.look, List.lookup], ?_⟩
    exact ⟨_, rfl, rfl, rfl, _, rfl, rfl, rfl⟩

/-- Claim C1 counterexample: in `reqPaypalZero` all three required fields are
present, yet the response is 400, not the 200 the claim promises — the guard
tests JS truthiness, and the number 0 is falsy. -/
theorem claim_C1_cex :
    reqPaypalZero.orderID.isSome = true ∧
    reqPaypalZero.payerID.isSome = true ∧
    reqPaypalZero.amount.isSome = true ∧
    (processPaypalPayment envT "t0" reqPaypalZero).resp.status = 400 ∧
    (processPaypalPayment envT "t0" reqPaypalZero).resp.status ≠ 200 := by
  refine ⟨rfl, rfl, rfl, rfl, by decide⟩

/-- Claim C1 witness: the falsy branch at a zero amount, and the success
branch at the spec example (orderID "O1", amount 19.99), whose rendered
value is "19.99". -/
theorem claim_C1_witness :
    truthyOpt reqPaypalZero.amount = false ∧
    ((processPaypalPayment envT "t0" reqPaypalZero).resp =
      { status := 400,
        body := .obj [("success", .bool false),
                      ("error", .str "Missing required payment information")] }) ∧
    reqPaypal.orderID = some (.str "O1") ∧
    reqPaypal.amount = some (.num (mkRat 1999 100)) ∧
    ((processPaypalPayment envT "t0" reqPaypal).resp.status = 200 ∧
     (processPaypalPayment envT "t0" reqPaypal).resp.body.look "success" = some (.bool true) ∧
     (∃ p, (processPaypalPayment envT "t0" reqPaypal).resp.body.look "payment" = some p ∧
       p.look "id" = some (JSVal.str "O1").toJson ∧
       p.look "status" = some (.str "COMPLETED") ∧
       (∃ a, p.look "amount" = some a ∧
         a.look "currency_code" = some (.str "USD") ∧
         a.look "value" = some (.str (toFixed2 (mkRat 1999 100)))))) ∧
    toFixed2 (mkRat 1999 100) = "19.99" :=
  ⟨rfl,
   (claim_C1 envT "t0" reqPaypalZero).1 (Or.inr (Or.inr rfl)),
   rfl, rfl,
   (claim_C1 envT "t0" reqPaypal).2 (.str "O1") (.str "P1") (mkRat 1999 100)
     rfl rfl rfl (by decide) (by decide) (by decide),
   by decide⟩

/-- Claim C2: a create-payment-intent request whose amount is missing or
below 50 minor units gets a 400 with error "Invalid amount" and details
"Amount must be at least $0.50" and the provider is never called (the
recorded create argument is `none`); with amount at least 50, a provider
success yields a 200 carrying the client_secret and the payment intent id. -/
theorem claim_C2 (req : CreateIntentReq) (r : StripeCreateResult) :
    ((req.amount = none ∨ ∃ q, req.amount = some q ∧ q < 50) →
      createPaymentIntent req r =
        ({ status := 400,
           body := .obj [("error", .str "Invalid amount"),
                         ("details", .str "Amount must be at least $0.50")] }, none)) ∧
    (∀ q id secret, req.amount = some q → 50 ≤ q →
      (createPaymentIntent req (.ok id secret)).1.status = 200 ∧
      (createPaymentIntent req (.ok id secret)).1.body.look "success" = some (.bool true) ∧
      (createPaymentIntent req (.ok id secret)).1.body.look "client_secret" = some (.str secret) ∧
      (createPaymentIntent req (.ok id secret)).1.body.look "payment_intent_id" = some (.str id)) := by
  constructor
  · intro h
    have hcond : truthyOpt (req.amount.map JSVal.num) = false ∨ req.amount.getD 0 < 50 := by
      rcases h with hnone | ⟨q, hq, hlt⟩
      · left; rw [hnone]; rfl
      · right; rw [hq]; simpa using hlt
    simp only [createPaymentIntent, if_pos hcond]
  · intro q id secret hq h50
    have hcond := amount_cond_false hq h50
    simp only [createPaymentIntent, if_neg hcond]
    simp [Json.look, List.lookup]

/-- Claim C2 witness: the 400 branch at the spec example `amount: 25`, and
the success branch at amount 50.5. -/
theorem claim_C2_witness :
    (req25.amount = none ∨ ∃ q, req25.amount = some q ∧ q < 50) ∧
    (createPaymentIntent req25 (.err none none) =
      ({ status := 400,
         body := .obj [("error", .str "Invalid amount"),
                       ("details", .str "Amount must be at least $0.50")] }, none)) ∧
    reqHalf.amount = some (mkRat 101 2) ∧ 50 ≤ (mkRat 101 2 : ℚ) ∧
    ((createPaymentIntent reqHalf (.ok "pi_1" "cs_1")).1.status = 200 ∧
     (createPaymentIntent reqHalf (.ok "pi_1" "cs_1")).1.body.look "success" = some (.bool true) ∧
     (createPaymentIntent reqHalf (.ok "pi_1" "cs_1")).1.body.look "client_secret" = some (.str "cs_1") ∧
     (createPaymentIntent reqHalf (.ok "pi_1" "cs_1")).1.body.look "payment_intent_id" = some (.str "pi_1")) :=
  ⟨Or.inr ⟨25, rfl, by decide⟩,
   (claim_C2 req25 (.err none none)).1 (Or.inr ⟨25, rfl, by decide⟩),
   rfl, by decide,
   (claim_C2 reqHalf (.ok "pi_1" "cs_1")).2 (mkRat 101 2) "pi_1" "cs_1" rfl (by decide)⟩

/-- Claim C3: when the webhook secret is configured and signature verification
throws with message m, the webhook handler responds 400 with the string body
"Webhook Error: m", attempts no email and never invokes the notifier —
independent of whatever event the body contained. -/
theorem claim_C3 (env : Env) (m : String)
    (hsec : strTruthy env.STRIPE_WEBHOOK_SECRET = true) :
    (webhookHandler env (.err m)).resp =
      { status := 400, body := .str ("Webhook Error: " ++ m) } ∧
    (webhookHandler env (.err m)).emails = [] ∧
    (webhookHandler env (.err m)).notified = false := by
  simp [webhookHandler, hsec]

/-- Claim C3 witness at the fully configured environment and a concrete
verification failure message. -/
theorem claim_C3_witness :
    strTruthy envT.STRIPE_WEBHOOK_SECRET = true ∧
    ((webhookHandler envT (.err "No signatures found matching the expected signature for payload")).resp =
      { status := 400,
        body := .str ("Webhook Error: " ++ "No signatures found matching the expected signature for payload") } ∧
     (webhookHandler envT (.err "No signatures found matching the expected signature for payload")).emails = [] ∧
     (webhookHandler envT (.err "No signatures found matching the expected signature for payload")).notified = false) :=
  ⟨by decide, claim_C3 envT _ (by decide)⟩

/-- Claim C4: with the webhook secret and the email transporter configured, a
verified event of type "payment_intent.succeeded" whose intent resolves to a
customer email triggers exactly one business send attempt and exactly one
customer send attempt, and a verified "payment_intent.payment_failed" event
triggers none. -/
theorem claim_C4 (env : Env) (e : WebhookEvent)
    (hsec : strTruthy env.STRIPE_WEBHOOK_SECRET = true) :
    (e.type = "payment_intent.succeeded" → emailConfigured env = true →
      strTruthy (jsOrS e.dataObject.receipt_email e.dataObject.metadata_customer_email) = true →
      countKind (webhookHandler env (.ok e)).emails .business = 1 ∧
      countKind (webhookHandler env (.ok e)).emails .customer = 1) ∧
    (e.type = "payment_intent.payment_failed" →
      (webhookHandler env (.ok e)).emails = []) := by
  constructor
  · intro htype hmail hres
    rcases hE : jsOrS e.dataObject.receipt_email e.dataObject.metadata_customer_email
      with _ | s
    · rw [hE] at hres
      simp [strTruthy] at hres
    · rw [hE] at hres
      have hs : s ≠ "" := by simpa [strTruthy, bne_iff_ne] using hres
      simp [webhookHandler, hsec, htype, hmail, sendOrderEmails, hE, hs, countKind,
        List.filter]
  · intro htype
    simp [webhookHandler, hsec, htype]

/-- Claim C4 witness: a succeeded event with a receipt email yields one
send attempt of each kind; a payment_failed event yields none. -/
theorem claim_C4_witness :
    strTruthy envT.STRIPE_WEBHOOK_SECRET = true ∧
    emailConfigured envT = true ∧
    strTruthy (jsOrS piSucceeded.receipt_email piSucceeded.metadata_customer_email) = true ∧
    (countKind (webhookHandler envT
        (.ok { type := "payment_intent.succeeded", dataObject := piSucceeded })).emails
        .business = 1 ∧
     countKind (webhookHandler envT
        (.ok { type := "payment_intent.succeeded", dataObject := piSucceeded })).emails
        .customer = 1) ∧
    (webhookHandler envT
        (.ok { type := "payment_intent.payment_failed", dataObject := piSucceeded })).emails = [] :=
  ⟨by decide, by decide, by decide,
   (claim_C4 envT { type := "payment_intent.succeeded", dataObject := piSucceeded }
      (by decide)).1 rfl (by decide) (by decide),
   (claim_C4 envT { type := "payment_intent.payment_failed", dataObject := piSucceeded }
      (by decide)).2 rfl⟩

/-- Claim C5: confirm-payment on a retrieved intent whose status is not
"succeeded" responds 200 (a result, not an exception) with success false, the
literal current status string, a "Payment status is ..." message, and attempts
no email; on a succeeded intent with the transporter configured it reports
success and invokes the notifier. -/
theorem claim_C5 (env : Env) (pid : JSVal) (pi : StripeIntent)
    (hpid : pid.truthy = true) :
    (pi.status ≠ "succeeded" →
      (confirmPayment env (some pid) (.ok pi)).resp.status = 200 ∧
      (confirmPayment env (some pid) (.ok pi)).resp.body.look "success" = some (.bool false) ∧
      (confirmPayment env (some pid) (.ok pi)).resp.body.look "status" = some (.str pi.status) ∧
      (confirmPayment env (some pid) (.ok pi)).resp.body.look "message" =
        some (.str ("Payment status is " ++ pi.status)) ∧
      (confirmPayment env (some pid) (.ok pi)).emails = [] ∧
      (confirmPayment env (some pid) (.ok pi)).notified = false) ∧
    (pi.status = "succeeded" → emailConfigured env = true →
      (confirmPayment env (some pid) (.ok pi)).resp.status = 200 ∧
      (confirmPayment env (some pid) (.ok pi)).resp.body.look "success" = some (.bool true) ∧
      (confirmPayment env (some pid) (.ok pi)).notified = true) := by
  constructor
  · intro hst
    simp [confirmPayment, truthyOpt, hpid, hst, Json.look, List.lookup]
  · intro hst hmail
    simp [confirmPayment, truthyOpt, hpid, hst, hmail, Json.look, List.lookup]

/-- Claim C5 witness: a requires_payment_method intent yields the non-error
failure snapshot with no email; a succeeded intent yields success with the
notifier invoked. -/
theorem claim_C5_witness :
    JSVal.truthy (.str "pi_9") = true ∧
    piRequires.status ≠ "succeeded" ∧
    ((confirmPayment envT (some (.str "pi_9")) (.ok piRequires)).resp.status = 200 ∧
     (confirmPayment envT (some (.str "pi_9")) (.ok piRequires)).resp.body.look "success" =
       some (.bool false) ∧
     (confirmPayment envT (some (.str "pi_9")) (.ok piRequires)).resp.body.look "status" =
       some (.str piRequires.status) ∧
     (confirmPayment envT (some (.str "pi_9")) (.ok piRequires)).resp.body.look "message" =
       some (.str ("Payment status is " ++ piRequires.status)) ∧
     (confirmPayment envT (some (.str "pi_9")) (.ok piRequires)).emails = [] ∧
     (confirmPayment envT (some (.str "pi_9")) (.ok piRequires)).notified = false) ∧
    piSucceeded.status = "succeeded" ∧ emailConfigured envT = true ∧
    ((confirmPayment envT (some (.str "pi_9")) (.ok piSucceeded)).resp.status = 200 ∧
     (confirmPayment envT (some (.str "pi_9")) (.ok piSucceeded)).resp.body.look "success" =
       some (.bool true) ∧
     (confirmPayment envT (some (.str "pi_9")) (.ok piSucceeded)).notified = true) :=
  ⟨by decide, by decide,
   (claim_C5 envT (.str "pi_9") piRequires (by decide)).1 (by decide),
   rfl, by decide,
   (claim_C5 envT (.str "pi_9") piSucceeded (by decide)).2 rfl (by decide)⟩

/-- Claim C6, as amended: every non-200 create-payment-intent response is
either the 400 validation response, whose body is exactly
(error "Invalid amount", details "Amount must be at least $0.50") and carries
NO success field, or the 500 provider-error response, whose body is
success false with error and code strings. The original claim said both
non-200 branches carry success:false; `claim_C6_cex` refutes this for the
400 branch. -/
theorem claim_C6 (req : CreateIntentReq) (r : StripeCreateResult) :
    (createPaymentIntent req r).1.status ≠ 200 →
    ((createPaymentIntent req r).1.status = 400 ∧
     (createPaymentIntent req r).1.body.look "success" = none ∧
     (createPaymentIntent req r).1.body.look "error" = some (.str "Invalid amount") ∧
     (createPaymentIntent req r).1.body.look "details" =
       some (.str "Amount must be at least $0.50")) ∨
    ((createPaymentIntent req r).1.status = 500 ∧
     (createPaymentIntent req r).1.body.look "success" = some (.bool false) ∧
     (∃ s, (createPaymentIntent req r).1.body.look "error" = some (.str s)) ∧
     (∃ c, (createPaymentIntent req r).1.body.look "code" = some (.str c))) := by
  intro h200
  by_cases hcond : truthyOpt (req.amount.map JSVal.num) = false ∨ req.amount.getD 0 < 50
  · left
    simp only [createPaymentIntent, if_pos hcond]
    simp [Json.look, List.lookup]
  · right
    cases r with
    | ok id secret =>
        exfalso
        apply h200
        simp only [createPaymentIntent, if_neg hcond]
    | err message errType =>
        simp only [createPaymentIntent, if_neg hcond]
        simp [Json.look, List.lookup]

/-- Claim C6 counterexample: the 400 validation response to `amount: 25` is a
non-200 response whose body has no "success" field at all, contradicting the
claimed shape (success:false, error, code?). -/
theorem claim_C6_cex :
    (createPaymentIntent req25 (.ok "pi_1" "cs_1")).1.status ≠ 200 ∧
    (createPaymentIntent req25 (.ok "pi_1" "cs_1")).1.status = 400 ∧
    (createPaymentIntent req25 (.ok "pi_1" "cs_1")).1.body.look "success" = none :=
  ⟨by decide, rfl, rfl⟩

/-- Claim C6 witness: the amended shape at both non-200 branches — the 400
validation response and a 500 provider error. -/
theorem claim_C6_witness :
    (createPaymentIntent req25 (.err none none)).1.status ≠ 200 ∧
    (((createPaymentIntent req25 (.err none none)).1.status = 400 ∧
      (createPaymentIntent req25 (.err none none)).1.body.look "success" = none ∧
      (createPaymentIntent req25 (.err none none)).1.body.look "error" =
        some (.str "Invalid amount") ∧
      (createPaymentIntent req25 (.err none none)).1.body.look "details" =
        some (.str "Amount must be at least $0.50")) ∨
     ((createPaymentIntent req25 (.err none none)).1.status = 500 ∧
      (createPaymentIntent req25 (.err none none)).1.body.look "success" = some (.bool false) ∧
      (∃ s, (createPaymentIntent req25 (.err none none)).1.body.look "error" = some (.str s)) ∧
      (∃ c, (createPaymentIntent req25 (.err none none)).1.body.look "code" = some (.str c)))) ∧
    (createPaymentIntent reqHalf (.err (some "Your card was declined.") (some "card_error"))).1.status ≠ 200 ∧
    (((createPaymentIntent reqHalf (.err (some "Your card was declined.") (some "card_error"))).1.status = 400 ∧
      (createPaymentIntent reqHalf (.err (some "Your card was declined.") (some "card_error"))).1.body.look "success" = none ∧
      (createPaymentIntent reqHalf (.err (some "Your card was declined.") (some "card_error"))).1.body.look "error" =
        some (.str "Invalid amount") ∧
      (createPaymentIntent reqHalf (.err (some "Your card was declined.") (some "card_error"))).1.body.look "details" =
        some (.str "Amount must be at least $0.50")) ∨
     ((createPaymentIntent reqHalf (.err (some "Your card was declined.") (some "card_error"))).1.status = 500 ∧
      (createPaymentIntent reqHalf (.err (some "Your card was declined.") (some "card_error"))).1.body.look "success" = some (.bool false) ∧
      (∃ s, (createPaymentIntent reqHalf (.err (some "Your card was declined.") (some "card_error"))).1.body.look "error" = some (.str s)) ∧
      (∃ c, (createPaymentIntent reqHalf (.err (some "Your card was declined.") (some "card_error"))).1.body.look "code" = some (.str c)))) :=
  ⟨by decide, claim_C6 req25 (.err none none) (by decide),
   by decide,
   claim_C6 reqHalf (.err (some "Your card was declined.") (some "card_error")) (by decide)⟩

/-- Claim C7: the health body is a function only of the truthiness of the
configured secrets, never of their values — two environments whose secret
values differ arbitrarily but agree on the presence pattern (and on the
non-secret NODE_ENV) produce identical bodies for the same timestamp. The
webhook secret and business email may even differ in presence: they do not
flow into the body at all. -/
theorem claim_C7 (e1 e2 : Env) (ts : String)
    (hkey : strTruthy e1.STRIPE_SECRET_KEY = strTruthy e2.STRIPE_SECRET_KEY)
    (huser : strTruthy e1.EMAIL_USER = strTruthy e2.EMAIL_USER)
    (hpass : strTruthy e1.EMAIL_PASS = strTruthy e2.EMAIL_PASS)
    (henv : e1.NODE_ENV = e2.NODE_ENV) :
    healthBody e1 ts = healthBody e2 ts := by
  simp [healthBody, hkey, huser, hpass, henv]

/-- Claim C7 witness: `envT` and `envU` differ in every secret value yet
produce the same health body. -/
theorem claim_C7_witness :
    strTruthy envT.STRIPE_SECRET_KEY = strTruthy envU.STRIPE_SECRET_KEY ∧
    envT.STRIPE_SECRET_KEY ≠ envU.STRIPE_SECRET_KEY ∧
    envT.STRIPE_WEBHOOK_SECRET ≠ envU.STRIPE_WEBHOOK_SECRET ∧
    envT.EMAIL_PASS ≠ envU.EMAIL_PASS ∧
    healthBody envT "2026-10-11T00:00:00.000Z" = healthBody envU "2026-10-11T00:00:00.000Z" :=
  ⟨by decide, by decide, by decide, by decide,
   claim_C7 envT envU _ (by decide) (by decide) (by decide) (by decide)⟩

/-- Claim C8, as amended: the CORS gate allows a request iff its Origin
header is absent, or is the empty string (both falsy under the `!origin`
test), or is a member of the static allow-list; any other origin is rejected
with the policy error handed to the framework error path. The original claim
allowed only absent-or-listed origins; `claim_C8_cex` shows the present but
empty origin is also allowed. The allow-list itself is the immutable
constant `allowedOrigins`. -/
theorem claim_C8 (o : Option String) :
    (corsOriginCheck o = .allow ↔
      o = none ∨ o = some "" ∨ ∃ s, o = some s ∧ s ∈ allowedOrigins) ∧
    (∀ s, o = some s → s ≠ "" → s ∉ allowedOrigins →
      corsOriginCheck o = .reject corsMsg) := by
  constructor
  · cases o with
    | none => simp [corsOriginCheck]
    | some s =>
        by_cases hs : s = ""
        · subst hs
          simp [corsOriginCheck]
        · by_cases hm : s ∈ allowedOrigins
          · have hc : allowedOrigins.contains s = true := List.elem_iff.mpr hm
            simp [corsOriginCheck, hs, hc, hm]
          · have hc : allowedOrigins.contains s = false := by
              rw [Bool.eq_false_iff]
              intro h
              exact hm (List.elem_iff.mp h)
            simp [corsOriginCheck, hs, hc, hm]
  · intro s hso hs hm
    subst hso
    have hc : allowedOrigins.contains s = false := by
      rw [Bool.eq_false_iff]
      intro h
      exact hm (List.elem_iff.mp h)
    simp [corsOriginCheck, hs, hc, hm]

/-- Claim C8 counterexample: the empty-string Origin header is present (not
absent) and not on the allow-list, yet the gate allows it, because the code
tests `!origin` rather than header absence. -/
theorem claim_C8_cex :
    corsOriginCheck (some "") = .allow ∧
    (some "" : Option String) ≠ none ∧
    ¬ ("" ∈ allowedOrigins) :=
  ⟨rfl, by decide, by decide⟩

/-- Claim C8 witness: a non-empty unlisted origin is rejected with the
policy message. -/
theorem claim_C8_witness :
    "https://evil.example" ≠ "" ∧
    ¬ ("https://evil.example" ∈ allowedOrigins) ∧
    corsOriginCheck (some "https://evil.example") = .reject corsMsg :=
  ⟨by decide, by decide,
   (claim_C8 (some "https://evil.example")).2 "https://evil.example" rfl
     (by decide) (by decide)⟩

/-- Claim C9: for any amount of at least 50 minor units, the argument this
server hands to the provider carries `jsRound amount` — Math.round of the
request amount, proven equal to the floor of `amount + 1/2` — and the
request is not rejected with the 400 validation error, so non-integer
amounts are silently rounded, never refused. -/
theorem claim_C9 (req : CreateIntentReq) (r : StripeCreateResult) (q : ℚ)
    (hq : req.amount = some q) (h50 : 50 ≤ q) :
    (∃ p, (createPaymentIntent req r).2 = some p ∧ p.amount = jsRound q) ∧
    (createPaymentIntent req r).1.status ≠ 400 ∧
    jsRound q = ⌊q + 1/2⌋ := by
  have hcond := amount_cond_false hq h50
  refine ⟨?_, ?_, jsRound_eq_floor q⟩
  · cases r <;>
      simp only [createPaymentIntent, if_neg hcond] <;>
      exact ⟨_, rfl, by simp [hq]⟩
  · cases r <;>
      simp only [createPaymentIntent, if_neg hcond] <;>
      decide

/-- Claim C9 witness: the non-integer amount 50.5 is forwarded as 51. -/
theorem claim_C9_witness :
    reqHalf.amount = some (mkRat 101 2) ∧ 50 ≤ (mkRat 101 2 : ℚ) ∧
    ((∃ p, (createPaymentIntent reqHalf (.ok "pi_1" "cs_1")).2 = some p ∧
        p.amount = jsRound (mkRat 101 2)) ∧
     (createPaymentIntent reqHalf (.ok "pi_1" "cs_1")).1.status ≠ 400 ∧
     jsRound (mkRat 101 2) = ⌊(mkRat 101 2 : ℚ) + 1/2⌋) ∧
    jsRound (mkRat 101 2) = 51 :=
  ⟨rfl, by decide,
   claim_C9 reqHalf (.ok "pi_1" "cs_1") (mkRat 101 2) rfl (by decide),
   by decide⟩

/-- Claim C10: a process-paypal-payment request with truthy orderID and
payerID and a truthy non-number amount (a non-empty string) passes validation
but `amount.toFixed(2)` throws, so the handler lands in its catch branch:
a 500 with success false and no email attempted — neither the 400 validation
error nor the 200 success response. -/
theorem claim_C10 (env : Env) (ts : String) (req : PaypalReq) (s : String)
    (ho : truthyOpt req.orderID = true) (hp : truthyOpt req.payerID = true)
    (ha : req.amount = some (.str s)) (hs : s ≠ "") :
    (processPaypalPayment env ts req).resp.status = 500 ∧
    (processPaypalPayment env ts req).resp.body.look "success" = some (.bool false) ∧
    (processPaypalPayment env ts req).emails = [] := by
  have hta : truthyOpt req.amount = true := by
    rw [ha]; simp [truthyOpt, JSVal.truthy, bne_iff_ne, hs]
  simp [processPaypalPayment, ho, hp, hta]
  simp [ha, JSVal.toFixed, Json.look]

/-- Claim C10 witness: with amount the string "19.99" the endpoint returns a
500 with success false. -/
theorem claim_C10_witness :
    truthyOpt reqPaypalStr.orderID = true ∧
    truthyOpt reqPaypalStr.payerID = true ∧
    reqPaypalStr.amount = some (.str "19.99") ∧
    ((processPaypalPayment envT "t0" reqPaypalStr).resp.status = 500 ∧
     (processPaypalPayment envT "t0" reqPaypalStr).resp.body.look "success" = some (.bool false) ∧
     (processPaypalPayment envT "t0" reqPaypalStr).emails = []) :=
  ⟨by decide, by decide, rfl,
   claim_C10 envT "t0" reqPaypalStr "19.99" (by decide) (by decide) rfl (by decide)⟩

end Pakbh
